import Mathlib

/-!
Verification development for the react-typescript-arsenal-tools analyzer.

The TypeScript sources are shallowly embedded as executable Lean
definitions: strings are Lean `String`s manipulated through their
character lists, JavaScript `number` scores are rationals (`ℚ`), record
spreads are Lean structure updates, and thrown exceptions are modelled
with `Option`/`Except`.  Definition names follow the source names.
-/

/-! ## JavaScript string primitives (substring search, splitting) -/

/-- Double-quote character (written by code to avoid quoting issues). -/
def dquoteChar : Char := Char.ofNat 34

/-- Single-quote character. -/
def squoteChar : Char := Char.ofNat 39

/-- Index of the first occurrence of `pat` in `s` (`String.prototype.indexOf`
on character lists); `none` when `pat` does not occur. -/
def firstMatchIdx (pat : List Char) : List Char → Option Nat
  | [] => if pat = [] then some 0 else none
  | c :: rest =>
    if pat.isPrefixOf (c :: rest) then some 0
    else (firstMatchIdx pat rest).map (· + 1)

/-- `s.indexOf(pat)` returning an option. -/
def strIndexOf (s pat : String) : Option Nat := firstMatchIdx pat.data s.data

/-- `s.includes(pat)` from JavaScript. -/
def jsIncludes (s pat : String) : Bool := (strIndexOf s pat).isSome

/-- `s.indexOf(pat)` from JavaScript: `-1` when absent. -/
def jsIndexOf (s pat : String) : Int :=
  match strIndexOf s pat with
  | some n => (n : Int)
  | none => -1

/-- Number of positions of `s` at which `pat` occurs (used only to state
that a line contains several occurrences of a pattern). -/
def countOccur (s pat : String) : Nat :=
  ((List.range s.data.length).filter
    (fun i => pat.data.isPrefixOf (s.data.drop i))).length

/-- `content.split('\n')` on character lists.  `[] ↦ [[]]` matches
JavaScript, where `''.split('\n')` is `['']`. -/
def splitLinesChars : List Char → List (List Char)
  | [] => [[]]
  | c :: rest =>
    let r := splitLinesChars rest
    if c = '\n' then [] :: r
    else (c :: r.headD []) :: r.tail

/-- `content.split('\n')` from the matchers. -/
def jsLines (content : String) : List String :=
  (splitLinesChars content.data).map List.asString

/-! ## Data model (packages/core): severities, findings, rules -/

/-- `'error' | 'warning' | 'info'` from `packages/core`. -/
inductive Severity
  | error
  | warning
  | info
deriving DecidableEq, Repr

/-- A `Finding` (packages/core/src/types.ts): one rule violation
occurrence.  `line` is 1-indexed; `column` is the JavaScript number
`indexOf(...) + 1`, hence an `Int`. -/
structure Finding where
  ruleId : String
  message : String
  severity : Severity
  file : String
  line : Nat
  column : Int
  suggestion : Option String := none
deriving DecidableEq, Repr

/-- A catalog `Rule` descriptor. -/
structure Rule where
  id : String
  name : String
  description : String
  severity : Severity
  category : String
deriving DecidableEq, Repr

/-! ## Score aggregation -/

/-- `calculateHealthScore` from `packages/core/src/index.ts` (lines
42–50): `10` for an empty list, otherwise
`Math.max(0, 10 - findings.length * 0.5)`.  This is the function the
enhanced `ReactWebAnalyzer.analyzeProject` imports and calls. -/
def calculateHealthScore (findings : List Finding) : ℚ :=
  if findings.length = 0 then 10
  else max 0 (10 - (findings.length : ℚ) * (1 / 2))

/-- `errorCount` as computed in `analyzeProject`'s metrics. -/
def errorCount (findings : List Finding) : Nat :=
  (findings.filter (fun f => f.severity == Severity.error)).length

/-- `warningCount` as computed in `analyzeProject`'s metrics. -/
def warningCount (findings : List Finding) : Nat :=
  (findings.filter (fun f => f.severity == Severity.warning)).length

/-- `infoCount` as computed in `analyzeProject`'s metrics. -/
def infoCount (findings : List Finding) : Nat :=
  (findings.filter (fun f => f.severity == Severity.info)).length

/-! ## Rule catalog (`getSupportedPatterns` of the enhanced analyzer) -/

/-- The four legacy rules listed in `ReactWebAnalyzer.getSupportedPatterns`
(packages/analyzer-web/src/index.ts). -/
def legacyRules : List Rule :=
  [ { id := "react-anonymous-function", name := "Anonymous Function in JSX",
      description := "Avoid anonymous functions in JSX props for better performance",
      severity := Severity.warning, category := "performance" },
    { id := "react-missing-key", name := "Missing Key Prop",
      description := "Add key prop to list items for better reconciliation",
      severity := Severity.error, category := "correctness" },
    { id := "typescript-any-usage", name := "Any Type Usage",
      description := "Avoid using any type, use specific types instead",
      severity := Severity.warning, category := "type-safety" },
    { id := "react-missing-props-interface", name := "Missing Props Interface",
      description := "Define TypeScript interfaces for component props",
      severity := Severity.warning, category := "type-safety" } ]

/-- `EnhancedReactRules.getAllRules()` (rules/index.ts). -/
def enhancedRules : List Rule :=
  [ { id := "useEffect-missing-deps", name := "useEffect Missing Dependencies",
      description := "useEffect hook is missing dependencies in dependency array",
      severity := Severity.warning, category := "react-hooks" },
    { id := "useMemo-unnecessary", name := "Unnecessary useMemo",
      description := "useMemo is used for simple values that don\x27t need memoization",
      severity := Severity.info, category := "react-hooks" },
    { id := "useCallback-missing-deps", name := "useCallback Missing Dependencies",
      description := "useCallback hook is missing dependencies in dependency array",
      severity := Severity.warning, category := "react-hooks" },
    { id := "useState-complex-object", name := "Complex State Without Reducer",
      description := "Complex state object should use useReducer instead of useState",
      severity := Severity.info, category := "react-hooks" },
    { id := "component-too-many-props", name := "Component Has Too Many Props",
      description := "Component has more than 10 props, consider refactoring",
      severity := Severity.warning, category := "performance" },
    { id := "inline-object-creation", name := "Inline Object Creation in Render",
      description := "Avoid creating objects inline in render to prevent unnecessary re-renders",
      severity := Severity.warning, category := "performance" },
    { id := "missing-react-memo", name := "Missing React.memo for Pure Component",
      description := "Consider wrapping component with React.memo for better performance",
      severity := Severity.info, category := "performance" },
    { id := "heavy-computation-render", name := "Heavy Computation in Render",
      description := "Heavy computation detected in render, consider using useMemo",
      severity := Severity.warning, category := "performance" },
    { id := "missing-alt-text", name := "Missing Alt Text",
      description := "Image elements should have meaningful alt text for accessibility",
      severity := Severity.error, category := "accessibility" },
    { id := "missing-aria-labels", name := "Missing ARIA Labels",
      description := "Form inputs should have accessible labels or aria-labels",
      severity := Severity.error, category := "accessibility" },
    { id := "invalid-heading-order", name := "Invalid Heading Order",
      description := "Heading elements should follow proper hierarchical order",
      severity := Severity.warning, category := "accessibility" },
    { id := "missing-focus-management", name := "Missing Focus Management",
      description := "Modal or dialog components should manage focus properly",
      severity := Severity.warning, category := "accessibility" } ]

/-- `getSupportedPatterns()` of the enhanced analyzer: legacy rules
followed by the enhanced rules. -/
def getSupportedPatterns : List Rule := legacyRules ++ enhancedRules

/-! ## Configuration (config/rules.ts, embedded presets) -/

/-- Per-rule override (`RuleConfig`).  The only option that occurs in the
presets is the numeric `maxProps`. -/
structure RuleConfig where
  enabled : Bool
  severity : Option Severity := none
  options : List (String × Nat) := []
deriving DecidableEq, Repr

/-- `AnalyzerConfig`: preset tag, category switches, per-rule table
(JavaScript objects modelled as insertion-ordered association lists). -/
structure AnalyzerConfig where
  presets : String
  categories : List (String × Bool)
  rules : List (String × RuleConfig)
deriving DecidableEq, Repr

/-- Category table shared by the `strict` and `recommended` presets. -/
def allCategoriesOn : List (String × Bool) :=
  [("react-hooks", true), ("performance", true), ("accessibility", true),
   ("type-safety", true), ("correctness", true), ("best-practices", true)]

/-- `PRESET_CONFIGS.strict.rules`. -/
def strictRules : List (String × RuleConfig) :=
  [ ("useEffect-missing-deps", { enabled := true, severity := some Severity.error }),
    ("useMemo-unnecessary", { enabled := true, severity := some Severity.warning }),
    ("useCallback-missing-deps", { enabled := true, severity := some Severity.error }),
    ("useState-complex-object", { enabled := true, severity := some Severity.warning }),
    ("component-too-many-props",
      { enabled := true, severity := some Severity.error, options := [("maxProps", 8)] }),
    ("inline-object-creation", { enabled := true, severity := some Severity.warning }),
    ("missing-react-memo", { enabled := true, severity := some Severity.info }),
    ("heavy-computation-render", { enabled := true, severity := some Severity.warning }),
    ("missing-alt-text", { enabled := true, severity := some Severity.error }),
    ("missing-aria-labels", { enabled := true, severity := some Severity.error }),
    ("invalid-heading-order", { enabled := true, severity := some Severity.error }),
    ("missing-focus-management", { enabled := true, severity := some Severity.warning }),
    ("react-anonymous-function", { enabled := true, severity := some Severity.warning }),
    ("react-missing-key", { enabled := true, severity := some Severity.error }),
    ("typescript-any-usage", { enabled := true, severity := some Severity.error }),
    ("react-missing-props-interface", { enabled := true, severity := some Severity.warning }) ]

/-- `PRESET_CONFIGS.recommended.rules`. -/
def recommendedRules : List (String × RuleConfig) :=
  [ ("useEffect-missing-deps", { enabled := true, severity := some Severity.warning }),
    ("useMemo-unnecessary", { enabled := true, severity := some Severity.info }),
    ("useCallback-missing-deps", { enabled := true, severity := some Severity.warning }),
    ("useState-complex-object", { enabled := true, severity := some Severity.info }),
    ("component-too-many-props",
      { enabled := true, severity := some Severity.warning, options := [("maxProps", 10)] }),
    ("inline-object-creation", { enabled := true, severity := some Severity.warning }),
    ("missing-react-memo", { enabled := false }),
    ("heavy-computation-render", { enabled := true, severity := some Severity.warning }),
    ("missing-alt-text", { enabled := true, severity := some Severity.error }),
    ("missing-aria-labels", { enabled := true, severity := some Severity.warning }),
    ("invalid-heading-order", { enabled := true, severity := some Severity.warning }),
    ("missing-focus-management", { enabled := true, severity := some Severity.info }),
    ("react-anonymous-function", { enabled := true, severity := some Severity.warning }),
    ("react-missing-key", { enabled := true, severity := some Severity.error }),
    ("typescript-any-usage", { enabled := true, severity := some Severity.warning }),
    ("react-missing-props-interface", { enabled := true, severity := some Severity.info }) ]

/-- `PRESET_CONFIGS.minimal.categories`. -/
def minimalCategories : List (String × Bool) :=
  [("react-hooks", true), ("performance", false), ("accessibility", true),
   ("type-safety", true), ("correctness", true), ("best-practices", false)]

/-- `PRESET_CONFIGS.minimal.rules`. -/
def minimalRules : List (String × RuleConfig) :=
  [ ("useEffect-missing-deps", { enabled := true, severity := some Severity.warning }),
    ("useMemo-unnecessary", { enabled := false }),
    ("useCallback-missing-deps", { enabled := false }),
    ("useState-complex-object", { enabled := false }),
    ("component-too-many-props", { enabled := false }),
    ("inline-object-creation", { enabled := false }),
    ("missing-react-memo", { enabled := false }),
    ("heavy-computation-render", { enabled := false }),
    ("missing-alt-text", { enabled := true, severity := some Severity.error }),
    ("missing-aria-labels", { enabled := true, severity := some Severity.error }),
    ("invalid-heading-order", { enabled := false }),
    ("missing-focus-management", { enabled := false }),
    ("react-anonymous-function", { enabled := false }),
    ("react-missing-key", { enabled := true, severity := some Severity.error }),
    ("typescript-any-usage", { enabled := true, severity := some Severity.warning }),
    ("react-missing-props-interface", { enabled := false }) ]

/-- The `PRESET_CONFIGS` record: preset name ↦ (categories, rules). -/
def PRESET_CONFIGS : List (String × (List (String × Bool) × List (String × RuleConfig))) :=
  [ ("strict", (allCategoriesOn, strictRules)),
    ("recommended", (allCategoriesOn, recommendedRules)),
    ("minimal", (minimalCategories, minimalRules)) ]

/-- `DEFAULT_CONFIG`: the recommended preset. -/
def DEFAULT_CONFIG : AnalyzerConfig :=
  { presets := "recommended", categories := allCategoriesOn, rules := recommendedRules }

/-- `loadConfig(configPath?)`: both branches of the source return
`DEFAULT_CONFIG` (reading from a file is not implemented). -/
def loadConfig (_configPath : Option String) : AnalyzerConfig := DEFAULT_CONFIG

/-- Association-list lookup standing for a JavaScript property access. -/
def assocLookup {α : Type} (key : String) : List (String × α) → Option α
  | [] => none
  | (k, v) :: rest => if k = key then some v else assocLookup key rest

/-- `applyPreset(preset)`: reads `PRESET_CONFIGS[preset]` and
dereferences its fields.  For a name that is not a key of
`PRESET_CONFIGS`, the JavaScript code throws a `TypeError`
(property access on `undefined`), modelled as `none`. -/
def applyPreset (preset : String) : Option AnalyzerConfig :=
  match assocLookup preset PRESET_CONFIGS with
  | some pc => some { presets := preset, categories := pc.1, rules := pc.2 }
  | none => none

/-- `isRuleEnabled(ruleId, config)`: `config.rules[ruleId]?.enabled ?? true`. -/
def isRuleEnabled (ruleId : String) (config : AnalyzerConfig) : Bool :=
  ((assocLookup ruleId config.rules).map RuleConfig.enabled).getD true

/-- `getRuleSeverity(ruleId, config, defaultSeverity)`:
`config.rules[ruleId]?.severity ?? defaultSeverity`. -/
def getRuleSeverity (ruleId : String) (config : AnalyzerConfig)
    (defaultSeverity : Severity) : Severity :=
  ((assocLookup ruleId config.rules).bind RuleConfig.severity).getD defaultSeverity

/-! ## Rule filtering (`shouldApplyRule`) -/

/-- The `options` argument of `analyzeProject` / `shouldApplyRule`. -/
structure AnalyzeOptions where
  categories : Option (List String) := none
  enabledRules : Option (List String) := none
deriving DecidableEq, Repr

/-- `ReactWebAnalyzer.shouldApplyRule(ruleId, options)` (lines 363–385):
an explicit `enabledRules` list rejects rules not named in it; an
explicit `categories` list rejects rules (found in the catalog) whose
category is not named; otherwise the configuration table decides. -/
def shouldApplyRule (ruleId : String) (options : Option AnalyzeOptions)
    (config : AnalyzerConfig) : Bool :=
  let rejectedByRules : Bool :=
    match options.bind AnalyzeOptions.enabledRules with
    | some rs => !(rs.contains ruleId)
    | none => false
  if rejectedByRules then false
  else
    let rejectedByCategories : Bool :=
      match options.bind AnalyzeOptions.categories with
      | some cats =>
        match getSupportedPatterns.find? (fun r => r.id == ruleId) with
        | some r => !(cats.contains r.category)
        | none => false
      | none => false
    if rejectedByCategories then false
    else isRuleEnabled ruleId config

/-! ## Matchers (finding evaluators) -/

/-- `ReactWebAnalyzer.checkMissingKeys` (analyzer-web/src/index.ts lines
448–469): for each line containing `.map(` but not `key=` and containing
`<`, push a single finding whose column is `line.indexOf('.map(') + 1`. -/
def checkMissingKeys (content filePath : String) : List Finding :=
  (jsLines content).enum.filterMap (fun p =>
    if jsIncludes p.2 ".map(" && !(jsIncludes p.2 "key=") && jsIncludes p.2 "<" then
      some { ruleId := "react-missing-key",
             message := "Add key prop to list items for better reconciliation",
             severity := Severity.error,
             file := filePath,
             line := p.1 + 1,
             column := jsIndexOf p.2 ".map(" + 1,
             suggestion := some "Add key={unique_identifier} to the JSX element" }
    else none)

/-- `EnhancedReactRules.checkUseEffectDependencies` (rules/index.ts lines
153–172): for each line containing `useEffect(` but neither `[` nor `]`,
push a finding with the hard-coded severity `warning` and column
`line.indexOf('useEffect') + 1`.  The matcher takes no configuration. -/
def checkUseEffectDependencies (content filePath : String) : List Finding :=
  (jsLines content).enum.filterMap (fun p =>
    if jsIncludes p.2 "useEffect(" && !(jsIncludes p.2 "[") && !(jsIncludes p.2 "]") then
      some { ruleId := "useEffect-missing-deps",
             message := "useEffect should include dependency array",
             severity := Severity.warning,
             file := filePath,
             line := p.1 + 1,
             column := jsIndexOf p.2 "useEffect" + 1,
             suggestion := some "Add dependency array as second argument" }
    else none)

/-! ## Category grouping (score aggregation breakdown) -/

/-- The category a finding gets in `groupFindingsByCategory`:
`this.getSupportedPatterns().find(r => r.id === finding.ruleId)?.category
|| 'other'`. -/
def findingCategory (f : Finding) : String :=
  let c := ((getSupportedPatterns.find? (fun r => r.id == f.ruleId)).map
    Rule.category).getD ""
  if c = "" then "other" else c

/-- One step of the `reduce` in `groupFindingsByCategory`: append `f` to
the bucket of `key`, creating the bucket (in insertion order) if absent. -/
def pushCategory (acc : List (String × List Finding)) (key : String)
    (f : Finding) : List (String × List Finding) :=
  if acc.any (fun p => p.1 == key) then
    acc.map (fun p => if p.1 == key then (p.1, p.2 ++ [f]) else p)
  else acc ++ [(key, [f])]

/-- `ReactWebAnalyzer.groupFindingsByCategory` (lines 135–148). -/
def groupFindingsByCategory (findings : List Finding) :
    List (String × List Finding) :=
  findings.foldl (fun acc f => pushCategory acc (findingCategory f) f) []

/-! ## ClaudeService (claude-integration) -/

/-- `ClaudeConfig`: the constructor argument.  Optional fields model
omitted options. -/
structure ClaudeConfig where
  apiKey : String
  maxTokens : Option Nat := none
  temperature : Option ℚ := none
  model : Option String := none
  timeout : Option Nat := none
deriving DecidableEq, Repr

/-- The `Required<ClaudeConfig>` the constructor stores after filling
defaults. -/
structure RequiredClaudeConfig where
  apiKey : String
  maxTokens : Nat
  temperature : ℚ
  model : String
  timeout : Nat
deriving DecidableEq, Repr

/-- The `ClaudeService` constructor: throws
`'Claude API key is required'` when `!config.apiKey` (for a string,
exactly when it is empty/absent); otherwise stores the config with the
defaults `maxTokens=4096`, `temperature=0.3`,
`model='claude-3-5-haiku-latest'`, `timeout=30000`. -/
def constructClaudeService (config : ClaudeConfig) :
    Except String RequiredClaudeConfig :=
  if config.apiKey = "" then Except.error "Claude API key is required"
  else Except.ok
    { apiKey := config.apiKey,
      maxTokens := config.maxTokens.getD 4096,
      temperature := config.temperature.getD (3 / 10),
      model := config.model.getD "claude-3-5-haiku-latest",
      timeout := config.timeout.getD 30000 }

/-- `AnalysisResult` with the AI provenance fields (packages/core). -/
structure AnalysisResult where
  platform : String
  timestamp : String
  summary : String
  findings : List Finding
  healthScore : ℚ
  aiEnhanced : Option Bool := none
  aiModel : Option String := none
  aiError : Option String := none
deriving DecidableEq, Repr

/-- The object `callClaude` is expected to return (`any` in the source;
both fields may be missing). -/
structure AIInsights where
  summary : Option String := none
  suggestions : Option (List String) := none
deriving DecidableEq, Repr

/-- JavaScript `a || b` for an optional string `a`: `b` when `a` is
missing or empty (falsy). -/
def jsOrStr (a : Option String) (b : String) : String :=
  match a with
  | some s => if s = "" then b else s
  | none => b

/-- `ClaudeService.enhanceFindings(findings, suggestions)`:
`suggestion: suggestions[index] || finding.suggestion || finding.message`. -/
def enhanceFindings (findings : List Finding) (suggestions : List String) :
    List Finding :=
  findings.enum.map (fun p =>
    { p.2 with
      suggestion := some (jsOrStr (suggestions.get? p.1)
        (jsOrStr p.2.suggestion p.2.message)) })

/-- `ClaudeService.enhanceAnalysis` (part of claude-integration, lines
53–78).  The single external call `callClaude(prompt)` is passed in as
its outcome: `Except.error e` models any thrown service/transport error
(with `e` the human-readable message produced by `callClaude`'s error
translation), `Except.ok` a successfully parsed insights object (the
response parser itself never throws: its last stage is the total text
fallback). -/
def enhanceAnalysis (cfg : RequiredClaudeConfig) (analysis : AnalysisResult)
    (callClaude : Except String AIInsights) : AnalysisResult :=
  if cfg.apiKey = "" then { analysis with aiEnhanced := some false }
  else
    match callClaude with
    | Except.ok ai =>
      { analysis with
        summary := jsOrStr ai.summary analysis.summary,
        findings := enhanceFindings analysis.findings (ai.suggestions.getD []),
        aiEnhanced := some true,
        aiModel := some cfg.model }
    | Except.error e =>
      { analysis with aiEnhanced := some false, aiError := some e }

/-! ## Text-extraction fallback (`ClaudeService.extractInsightsFromText`)

The JavaScript regexes are modelled as explicit character-list scanners.
Each scanner is anchored at occurrences of the pattern's literal word;
quantifiers (`\s*`, `[^X]+`, lazy `.*?`) become `dropWhile`/`takeWhile`
runs over the same character classes. -/

/-- Lower-casing used for the `/i` regex flag. -/
def toLowerChars (cs : List Char) : List Char := cs.map Char.toLower

/-- `String.prototype.trim()`. -/
def jsTrimChars (cs : List Char) : List Char :=
  ((cs.dropWhile Char.isWhitespace).reverse.dropWhile Char.isWhitespace).reverse

/-- Text after the first case-insensitive occurrence of `lit`. -/
def afterLitCI (lit : String) (text : List Char) : Option (List Char) :=
  match firstMatchIdx (toLowerChars lit.data) (toLowerChars text) with
  | some i => some (text.drop (i + lit.data.length))
  | none => none

/-- The `summary[":]` opening shared by the first two summary patterns. -/
def afterSummaryLabel (text : List Char) : Option (List Char) :=
  match afterLitCI "summary" text with
  | some (c :: tl) => if c = dquoteChar ∨ c = ':' then some tl else none
  | _ => none

/-- Capture of `/summary[":]\s*["']([^"']+)["']/i`: a non-empty quoted
run with a closing quote. -/
def summaryQuotedCapture (text : List Char) : Option (List Char) :=
  (afterSummaryLabel text).bind (fun rest =>
    match rest.dropWhile Char.isWhitespace with
    | q :: tl =>
      if q = dquoteChar ∨ q = squoteChar then
        let cap := tl.takeWhile (fun c => !(c == dquoteChar || c == squoteChar))
        if cap ≠ [] ∧ tl.drop cap.length ≠ [] then some cap else none
      else none
    | [] => none)

/-- `\s*([^,\n]+)`: skip whitespace, capture a non-empty run up to a
comma or newline. -/
def captureUntilCommaNl (rest : List Char) : Option (List Char) :=
  let r := rest.dropWhile Char.isWhitespace
  let cap := r.takeWhile (fun c => !(c == ',' || c == '\n'))
  if cap = [] then none else some cap

/-- Capture of `/summary[":]\s*([^,\n]+)/i`. -/
def summaryUnquotedCapture (text : List Char) : Option (List Char) :=
  (afterSummaryLabel text).bind captureUntilCommaNl

/-- `lit` then `[^:]*[:]`: skip to and over the next colon. -/
def afterLabelColon (lit : String) (text : List Char) : Option (List Char) :=
  (afterLitCI lit text).bind (fun rest =>
    let upto := rest.takeWhile (fun c => !(c == ':'))
    match rest.drop upto.length with
    | _ :: tl => some tl
    | [] => none)

/-- Capture of `/overall[^:]*[:]\s*([^,\n]+)/i` (and the `assessment`
variant). -/
def summaryLabeledCapture (lit : String) (text : List Char) : Option (List Char) :=
  (afterLabelColon lit text).bind captureUntilCommaNl

/-- `match[1].trim().replace(/[",]/g, '')`, accepted when the trimmed
capture is longer than 10 characters. -/
def acceptSummaryCapture (cap : Option (List Char)) : Option (List Char) :=
  match cap with
  | some cs =>
    let t := jsTrimChars cs
    if t.length > 10 then
      some (t.filter (fun c => !(c == dquoteChar || c == ',')))
    else none
  | none => none

/-- The summary pattern loop: first accepted pattern wins. -/
def extractSummaryChars (text : List Char) : Option (List Char) :=
  match acceptSummaryCapture (summaryQuotedCapture text) with
  | some s => some s
  | none =>
    match acceptSummaryCapture (summaryUnquotedCapture text) with
    | some s => some s
    | none =>
      match acceptSummaryCapture (summaryLabeledCapture "overall" text) with
      | some s => some s
      | none => acceptSummaryCapture (summaryLabeledCapture "assessment" text)

/-- Capture of `/suggestions?\s*:\s*\[(.*?)\]/is`: the (lazy) contents
of the first bracketed array after a `suggestion(s)` label. -/
def suggestionsArrayCapture (text : List Char) : Option (List Char) :=
  (afterLitCI "suggestion" text).bind (fun rest0 =>
    let rest1 := match rest0 with
      | c :: tl => if c = 's' ∨ c = 'S' then tl else rest0
      | [] => rest0
    match rest1.dropWhile Char.isWhitespace with
    | ':' :: tl =>
      match tl.dropWhile Char.isWhitespace with
      | '[' :: tl2 =>
        let cap := tl2.takeWhile (fun c => !(c == ']'))
        if tl2.drop cap.length = [] then none else some cap
      | _ => none
    | _ => none)

/-- `split(/[",]\s*["']/)` scanner, fuel-indexed so that it is
structurally recursive (each step consumes at least one character, so
`cs.length` fuel always suffices; the fuel-exhausted arm is
unreachable).  Cut at each quote-or-comma followed by optional
whitespace and a quote. -/
def splitSuggestionsArrayF : Nat → List Char → List Char → List (List Char)
  | _, [], acc => [acc.reverse]
  | 0, cs, acc => [acc.reverse ++ cs]
  | fuel + 1, c :: rest, acc =>
    if c = dquoteChar ∨ c = ',' then
      match rest.dropWhile Char.isWhitespace with
      | q :: tail =>
        if q = dquoteChar ∨ q = squoteChar then
          acc.reverse :: splitSuggestionsArrayF fuel tail []
        else splitSuggestionsArrayF fuel rest (c :: acc)
      | [] => splitSuggestionsArrayF fuel rest (c :: acc)
    else splitSuggestionsArrayF fuel rest (c :: acc)

/-- `split(/[",]\s*["']/)`. -/
def splitSuggestionsArray (cs : List Char) (acc : List Char) : List (List Char) :=
  splitSuggestionsArrayF cs.length cs acc

/-- `s.replace(/^["']|["']$/g, '')`: remove one leading and one trailing
quote. -/
def stripEdgeQuotes (cs : List Char) : List Char :=
  let a := match cs with
    | c :: tl => if c = dquoteChar ∨ c = squoteChar then tl else cs
    | [] => cs
  match a.reverse with
  | c :: tl => if c = dquoteChar ∨ c = squoteChar then tl.reverse else a
  | [] => a

/-- Suggestion strategy 1: textual `suggestions: [...]` array; split,
strip quotes, trim, keep entries longer than 5 characters, first 3. -/
def suggestionsFromArray (text : List Char) : List (List Char) :=
  match suggestionsArrayCapture text with
  | some cap =>
    (((splitSuggestionsArray cap []).map
      (fun s => jsTrimChars (stripEdgeQuotes s))).filter
        (fun s => s.length > 5)).take 3
  | none => []

/-- Capture of `/^[-*•]\s+(.+)/` on a (trimmed) line. -/
def bulletCapture1 (line : List Char) : Option (List Char) :=
  match line with
  | c :: tl =>
    if c = '-' ∨ c = '*' ∨ c = '•' then
      let w := tl.takeWhile Char.isWhitespace
      let rest := tl.drop w.length
      if w ≠ [] ∧ rest ≠ [] then some rest else none
    else none
  | [] => none

/-- Capture of `/^\d+\.\s+(.+)/` on a (trimmed) line. -/
def bulletCapture2 (line : List Char) : Option (List Char) :=
  let ds := line.takeWhile Char.isDigit
  if ds = [] then none
  else
    match line.drop ds.length with
    | '.' :: tl =>
      let w := tl.takeWhile Char.isWhitespace
      let rest := tl.drop w.length
      if w ≠ [] ∧ rest ≠ [] then some rest else none
    | _ => none

/-- Capture of `/^[➤►]\s+(.+)/` on a (trimmed) line. -/
def bulletCapture3 (line : List Char) : Option (List Char) :=
  match line with
  | c :: tl =>
    if c = '➤' ∨ c = '►' then
      let w := tl.takeWhile Char.isWhitespace
      let rest := tl.drop w.length
      if w ≠ [] ∧ rest ≠ [] then some rest else none
    else none
  | [] => none

/-- Captures of the three bullet patterns on one line, kept when longer
than 10 characters, trimmed for pushing. -/
def lineBulletCaptures (line : List Char) : List (List Char) :=
  ([bulletCapture1 line, bulletCapture2 line, bulletCapture3 line].filterMap id).filterMap
    (fun cap => if cap.length > 10 then some (jsTrimChars cap) else none)

/-- The bullet loop with its break once three suggestions are
collected. -/
def collectBullets : List (List Char) → List (List Char) → List (List Char)
  | [], acc => acc
  | l :: rest, acc =>
    if acc.length ≥ 3 then acc
    else collectBullets rest ((acc ++ lineBulletCaptures l).take 3)

/-- Suggestion strategy 2: bulleted/numbered list lines. -/
def suggestionsFromBullets (text : List Char) : List (List Char) :=
  collectBullets ((splitLinesChars text).map jsTrimChars) []

/-- All suffixes following a case-insensitive occurrence of `lit`
(the `/g` flag's repeated matching). -/
def allMatchRestsCI (lit : String) (text : List Char) : List (List Char) :=
  ((List.range text.length).filter
    (fun i => (toLowerChars lit.data).isPrefixOf ((toLowerChars text).drop i))).map
    (fun i => text.drop (i + lit.data.length))

/-- `([^.!?]+[.!?])`: a non-empty run up to sentence punctuation,
capture including the punctuation mark. -/
def sentenceCapture (rest : List Char) : Option (List Char) :=
  let cap := rest.takeWhile (fun c => !(c == '.' || c == '!' || c == '?'))
  match rest.drop cap.length with
  | p :: _ => if cap = [] then none else some (cap ++ [p])
  | [] => none

/-- `[^:]*[:]\s*` then a sentence capture (the `recommend`/`suggest`
patterns). -/
def recColonCapture (rest : List Char) : Option (List Char) :=
  let upto := rest.takeWhile (fun c => !(c == ':'))
  match rest.drop upto.length with
  | _ :: tl => sentenceCapture (tl.dropWhile Char.isWhitespace)
  | [] => none

/-- `\s+` then a sentence capture (the `consider`/`should` patterns). -/
def recWsCapture (rest : List Char) : Option (List Char) :=
  let w := rest.takeWhile Char.isWhitespace
  if w = [] then none else sentenceCapture (rest.drop w.length)

/-- Matches of one recommendation pattern, trimmed, kept when longer
than 10 characters. -/
def patternRecCaptures (useColon : Bool) (lit : String) (text : List Char) :
    List (List Char) :=
  (allMatchRestsCI lit text).filterMap (fun rest =>
    match (if useColon then recColonCapture rest else recWsCapture rest) with
    | some cap =>
      let t := jsTrimChars cap
      if t.length > 10 then some t else none
    | none => none)

/-- Suggestion strategy 3: the four recommendation patterns in order,
stopping at three suggestions. -/
def suggestionsFromRecommendations (text : List Char) : List (List Char) :=
  (patternRecCaptures true "recommend" text
    ++ patternRecCaptures true "suggest" text
    ++ patternRecCaptures false "consider" text
    ++ patternRecCaptures false "should" text).take 3

/-- `text.split(/\n\s*\n/)`: cut where a newline is followed by
whitespace containing another newline (the delimiter extends to the
last newline of the whitespace run, matching the greedy `\s*`). -/
def splitParagraphsAuxF : Nat → List Char → List Char → List (List Char)
  | _, [], acc => [acc.reverse]
  | 0, cs, acc => [acc.reverse ++ cs]
  | fuel + 1, c :: rest, acc =>
    if c = '\n' then
      let w := rest.takeWhile Char.isWhitespace
      if w.contains '\n' then
        let k := w.length - (w.reverse.takeWhile (fun c => !(c == '\n'))).length
        acc.reverse :: splitParagraphsAuxF fuel (rest.drop k) []
      else splitParagraphsAuxF fuel rest ('\n' :: acc)
    else splitParagraphsAuxF fuel rest (c :: acc)

/-- `text.split(/\n\s*\n/)` (fuel-indexed scanner as above; `cs.length`
fuel always suffices). -/
def splitParagraphsAux (cs : List Char) (acc : List Char) : List (List Char) :=
  splitParagraphsAuxF cs.length cs acc

def collapseWsF : Nat → List Char → List Char
  | _, [] => []
  | 0, cs => cs
  | fuel + 1, c :: rest =>
    if c.isWhitespace then
      ' ' :: collapseWsF fuel (rest.dropWhile Char.isWhitespace)
    else c :: collapseWsF fuel rest

/-- `p.replace(/\s+/g, ' ')` (fuel-indexed scanner as above). -/
def collapseWs (cs : List Char) : List Char :=
  collapseWsF cs.length cs

/-- Suggestion strategy 4: the first three substantial paragraphs
(collapsed whitespace, trimmed, length strictly between 20 and 200). -/
def suggestionsFromParagraphs (text : List Char) : List (List Char) :=
  (((splitParagraphsAux text []).map (fun p => jsTrimChars (collapseWs p))).filter
    (fun p => p.length > 20 && p.length < 200)).take 3

/-- JavaScript `\w`. -/
def isWordChar (c : Char) : Bool := c.isAlphanum || c == '_'

/-- `s.replace(/^[^\w]*/, '').replace(/[^\w.!?]*$/, '')`. -/
def cleanSuggestion (cs : List Char) : List Char :=
  let a := cs.dropWhile (fun c => !(isWordChar c))
  (a.reverse.dropWhile
    (fun c => !(isWordChar c || c == '.' || c == '!' || c == '?'))).reverse

/-- The `{summary, suggestions}` object produced by the text fallback. -/
structure TextInsights where
  summary : String
  suggestions : List String
deriving DecidableEq, Repr

/-- The suggestion-strategy cascade of `extractInsightsFromText`: each
later strategy runs only while `suggestions.length === 0`, and the
generic suggestion is synthesized when all strategies came up empty. -/
def suggestionCandidates (text : String) : List (List Char) :=
  let s1 := suggestionsFromArray text.data
  let s2 := if s1.isEmpty then suggestionsFromBullets text.data else s1
  let s3 := if s2.isEmpty then suggestionsFromRecommendations text.data else s2
  let s4 := if s3.isEmpty then suggestionsFromParagraphs text.data else s3
  if s4.isEmpty then
    ["Review the code analysis results for improvement opportunities".data]
  else s4

/-- The clean-up pass and ultimate fallback of `extractInsightsFromText`:
strip edge punctuation, keep entries longer than 5 characters, first 3,
and fall back to a fixed suggestion when nothing survives. -/
def finalSuggestions (cands : List (List Char)) : List String :=
  let cleaned := ((cands.map cleanSuggestion).filter (fun s => s.length > 5)).take 3
  (if cleaned.isEmpty then ["Review findings for improvement opportunities".data]
   else cleaned).map List.asString

/-- The 200-character summary cap of `extractInsightsFromText`:
`summary.length > 200 ? summary.substring(0, 197) + '...' : summary`. -/
def capSummary (summaryChars : List Char) : String :=
  List.asString (if summaryChars.length > 200
    then summaryChars.take 197 ++ "...".data
    else summaryChars)

/-- `ClaudeService.extractInsightsFromText` (lines 353–453): the ordered
strategies for summary and suggestions, the synthesized generic
suggestion, the cleanup pass, and the final 200-character summary cap
with `'...'` truncation. -/
def extractInsightsFromText (text : String) : TextInsights :=
  { summary := capSummary (match extractSummaryChars text.data with
      | some s => s
      | none => "Analysis completed successfully.".data),
    suggestions := finalSuggestions (suggestionCandidates text) }

/-! ## Concrete fixtures used by the theorems -/

/-- A single error-severity finding. -/
def errFinding : Finding :=
  { ruleId := "react-missing-key",
    message := "Add key prop to list items for better reconciliation",
    severity := Severity.error, file := "App.tsx", line := 1, column := 1 }

/-- A single warning-severity finding. -/
def warnFinding : Finding :=
  { ruleId := "typescript-any-usage",
    message := "Avoid using any type, use specific types instead",
    severity := Severity.warning, file := "App.tsx", line := 2, column := 1 }

/-- A finding whose `ruleId` resolves to no catalog rule. -/
def unknownFinding : Finding :=
  { ruleId := "custom-unknown-rule", message := "m",
    severity := Severity.error, file := "App.tsx", line := 1, column := 1 }

/-- The configuration `applyPreset('strict')` builds. -/
def strictConfig : AnalyzerConfig :=
  { presets := "strict", categories := allCategoriesOn, rules := strictRules }

/-- The configuration `applyPreset('minimal')` builds. -/
def minimalConfig : AnalyzerConfig :=
  { presets := "minimal", categories := minimalCategories, rules := minimalRules }

/-- A line on which the missing-key pattern `.map(` occurs twice. -/
def twoMapLine : String := "const x = items.map(i => rows.map(r => <td>{r}</td>))"

/-! ## Theorems -/

/-- C9: for every finding list the health score lies in `[0, 10]`, and
the empty finding list scores exactly `10`. -/
theorem C9_score_bounds :
    (∀ F : List Finding,
      0 ≤ calculateHealthScore F ∧ calculateHealthScore F ≤ 10)
    ∧ calculateHealthScore [] = 10 := by
  constructor
  · intro F
    unfold calculateHealthScore
    by_cases h : F.length = 0
    · simp [h]
    · rw [if_neg h]
      refine ⟨le_max_left 0 _, ?_⟩
      have h1 : (0 : ℚ) ≤ (F.length : ℚ) * (1 / 2) := by positivity
      have h2 : (10 : ℚ) - (F.length : ℚ) * (1 / 2) ≤ 10 := by linarith
      exact max_le (by norm_num) h2
  · rfl

/-- C1 counterexample: a list with exactly one error-severity finding
scores `9.5`, not the `8.0` the claim requires (the score used by
`analyzeProject` is `@rta/core`'s count-based `calculateHealthScore`,
not severity-weighted). -/
theorem C1_cex :
    calculateHealthScore [errFinding] = 19 / 2 ∧ ((19 : ℚ) / 2) ≠ 8 := by
  constructor
  · unfold calculateHealthScore
    norm_num
  · norm_num

/-- C1 (amended): the health score computed for an analysis equals
`max(0, 10 − 0.5·|F|)` for non-empty `F` — it depends only on the number
of findings, never on their severities: any singleton list scores `9.5`
and any three-element list (such as two errors plus one warning) scores
`8.5`. -/
theorem C1_score_count_based :
    (∀ F : List Finding, F ≠ [] →
      calculateHealthScore F = max 0 (10 - (F.length : ℚ) * (1 / 2)))
    ∧ (∀ f : Finding, calculateHealthScore [f] = 19 / 2)
    ∧ (∀ f g h : Finding, calculateHealthScore [f, g, h] = 17 / 2) := by
  refine ⟨?_, ?_, ?_⟩
  · intro F hF
    unfold calculateHealthScore
    rw [if_neg (by simpa using hF)]
  · intro f
    unfold calculateHealthScore
    norm_num
  · intro f g h
    unfold calculateHealthScore
    norm_num

/-- C1 witness: the amended formula evaluated on concrete finding
lists. -/
theorem C1_witness :
    calculateHealthScore [errFinding] =
      max 0 (10 - (([errFinding] : List Finding).length : ℚ) * (1 / 2))
    ∧ calculateHealthScore [errFinding, errFinding, warnFinding] = 17 / 2 :=
  ⟨C1_score_count_based.1 [errFinding] (by simp),
   C1_score_count_based.2.2 errFinding errFinding warnFinding⟩

/-- C6 counterexample: resolving an unknown preset name does not fall
back to the recommended preset — `applyPreset('custom')` dereferences
`undefined` and throws a `TypeError` (modelled by `none`). -/
theorem C6_cex :
    applyPreset "custom" = none ∧ applyPreset "custom" ≠ some DEFAULT_CONFIG := by
  exact ⟨rfl, by decide⟩

/-- C6 (amended): `applyPreset` succeeds exactly on the three known
preset names and throws (models as `none`) on every other name — there
is no warning-and-fallback; only `loadConfig`, which ignores presets
altogether, unconditionally returns the recommended default
configuration. -/
theorem C6_unknown_preset_throws :
    (∀ p : String, p ≠ "strict" → p ≠ "recommended" → p ≠ "minimal" →
      applyPreset p = none)
    ∧ applyPreset "strict" = some strictConfig
    ∧ applyPreset "recommended" = some DEFAULT_CONFIG
    ∧ applyPreset "minimal" = some minimalConfig
    ∧ (∀ path : Option String, loadConfig path = DEFAULT_CONFIG) := by
  refine ⟨?_, rfl, rfl, rfl, fun _ => rfl⟩
  intro p h1 h2 h3
  have hl : assocLookup p PRESET_CONFIGS = none := by
    simp only [PRESET_CONFIGS, assocLookup]
    rw [if_neg (Ne.symm h1), if_neg (Ne.symm h2), if_neg (Ne.symm h3)]
  simp [applyPreset, hl]

/-- C6 witness: the amended claim evaluated at a concrete unknown preset
name and a concrete config path. -/
theorem C6_witness :
    applyPreset "someOtherPreset" = none
    ∧ loadConfig (some ".rta.json") = DEFAULT_CONFIG :=
  ⟨C6_unknown_preset_throws.1 "someOtherPreset" (by decide) (by decide) (by decide),
   C6_unknown_preset_throws.2.2.2.2 (some ".rta.json")⟩

/-- C3 counterexample: `react-anonymous-function` is named in the
explicit allow-list, yet under the `minimal` preset (which disables it)
`shouldApplyRule` still rejects it — the allow-list does not enable a
rule regardless of the preset's table. -/
theorem C3_cex :
    applyPreset "minimal" = some minimalConfig
    ∧ shouldApplyRule "react-anonymous-function"
        (some { enabledRules := some ["react-anonymous-function"] })
        minimalConfig = false := by
  exact ⟨rfl, by decide⟩

/-- C3 (amended): with preset `minimal` and
`enabledRules=['react-missing-key']` the resolved configuration does
enable exactly `react-missing-key` (because `minimal` itself enables
it); every rule not named in the allow-list is disabled; but a rule
named in the allow-list is enabled only if the configuration table also
enables it — the allow-list restricts, it never overrides the preset. -/
theorem C3_allowlist_restricts_only :
    (∀ r ∈ getSupportedPatterns, r.id ≠ "react-missing-key" →
      shouldApplyRule r.id
        (some { enabledRules := some ["react-missing-key"] })
        minimalConfig = false)
    ∧ shouldApplyRule "react-missing-key"
        (some { enabledRules := some ["react-missing-key"] })
        minimalConfig = true
    ∧ (∀ (ruleId : String) (cfg : AnalyzerConfig) (rs : List String),
        ruleId ∈ rs →
        shouldApplyRule ruleId
          (some { categories := none, enabledRules := some rs }) cfg
          = isRuleEnabled ruleId cfg) := by
  refine ⟨by decide, by decide, ?_⟩
  intro ruleId cfg rs hmem
  simp [shouldApplyRule, hmem]

/-- C3 witness: the amended claim evaluated at the
`react-anonymous-function` catalog rule and at a concrete allow-listed
rule. -/
theorem C3_witness :
    shouldApplyRule "react-anonymous-function"
      (some { enabledRules := some ["react-missing-key"] })
      minimalConfig = false
    ∧ shouldApplyRule "react-missing-key"
        (some { categories := none, enabledRules := some ["react-missing-key"] })
        DEFAULT_CONFIG
        = isRuleEnabled "react-missing-key" DEFAULT_CONFIG :=
  ⟨C3_allowlist_restricts_only.1
      { id := "react-anonymous-function", name := "Anonymous Function in JSX",
        description := "Avoid anonymous functions in JSX props for better performance",
        severity := Severity.warning, category := "performance" }
      (by decide) (by decide),
   C3_allowlist_restricts_only.2.2 "react-missing-key" DEFAULT_CONFIG
      ["react-missing-key"] (by decide)⟩

/-- C2 counterexample: under the `strict` preset the effective severity
of `useEffect-missing-deps` is `error` (the override), yet the rule's
matcher emits a finding with severity `warning` (the catalog default):
the override is never consulted by any matcher. -/
theorem C2_cex :
    applyPreset "strict" = some strictConfig
    ∧ isRuleEnabled "useEffect-missing-deps" strictConfig = true
    ∧ getRuleSeverity "useEffect-missing-deps" strictConfig Severity.warning
        = Severity.error
    ∧ (checkUseEffectDependencies "useEffect(fetchData);" "App.tsx").map
        Finding.severity = [Severity.warning] := by
  refine ⟨rfl, by decide, by decide, by decide⟩

/-- C2 (amended): every finding the `useEffect-missing-deps` matcher
emits carries the hard-coded severity `warning` — the matcher takes no
configuration, so a configured override (such as `strict`'s `error`,
which `getRuleSeverity` does compute) never reaches the emitted
findings. -/
theorem C2_matcher_severity_hardcoded :
    (∀ content filePath : String,
      ∀ f ∈ checkUseEffectDependencies content filePath,
        f.severity = Severity.warning)
    ∧ getRuleSeverity "useEffect-missing-deps" strictConfig Severity.warning
        = Severity.error := by
  refine ⟨?_, by decide⟩
  intro content filePath f hf
  obtain ⟨p, _, hgf⟩ := List.mem_filterMap.mp hf
  split at hgf
  · simp only [Option.some.injEq] at hgf
    subst hgf
    rfl
  · exact absurd hgf (by simp)

/-- C2 witness: the amended claim applied to the finding emitted for a
concrete dependency-free `useEffect` call. -/
theorem C2_witness :
    ({ ruleId := "useEffect-missing-deps",
       message := "useEffect should include dependency array",
       severity := Severity.warning, file := "App.tsx", line := 1,
       column := 1,
       suggestion := some "Add dependency array as second argument" } :
      Finding).severity = Severity.warning :=
  C2_matcher_severity_hardcoded.1 "useEffect(fetchData);" "App.tsx" _ (by decide)

/-- C5 counterexample: a finding whose `ruleId` resolves to no catalog
rule is not dropped from the category breakdown — it is grouped under
the fallback category `other` (while also counted in the severity
totals). -/
theorem C5_cex :
    groupFindingsByCategory [unknownFinding] = [("other", [unknownFinding])]
    ∧ errorCount [unknownFinding] = 1 := by
  exact ⟨by decide, by decide⟩

/-- C5 (amended): a finding whose `ruleId` is unknown to the catalog is
assigned the fallback category `other` and appears in the category
breakdown under that name (renamed, not dropped), and the per-severity
totals count every finding: the three severity counts always sum to the
length of the list. -/
theorem C5_unknown_rule_renamed_other :
    (∀ f : Finding,
      getSupportedPatterns.find? (fun r => r.id == f.ruleId) = none →
      findingCategory f = "other"
      ∧ groupFindingsByCategory [f] = [("other", [f])])
    ∧ (∀ F : List Finding,
        errorCount F + warningCount F + infoCount F = F.length) := by
  constructor
  · intro f hf
    have hcat : findingCategory f = "other" := by
      simp [findingCategory, hf]
    exact ⟨hcat, by simp [groupFindingsByCategory, pushCategory, hcat]⟩
  · intro F
    induction F with
    | nil => rfl
    | cons f tl ih =>
      unfold errorCount warningCount infoCount at ih ⊢
      cases hf : f.severity <;>
        simp [List.filter_cons, hf] <;> omega

/-- C5 witness: the amended claim at the concrete unknown-rule finding. -/
theorem C5_witness :
    findingCategory unknownFinding = "other"
    ∧ groupFindingsByCategory [unknownFinding] = [("other", [unknownFinding])]
    ∧ errorCount [unknownFinding] + warningCount [unknownFinding]
        + infoCount [unknownFinding] = 1 :=
  ⟨(C5_unknown_rule_renamed_other.1 unknownFinding (by decide)).1,
   (C5_unknown_rule_renamed_other.1 unknownFinding (by decide)).2,
   C5_unknown_rule_renamed_other.2 [unknownFinding]⟩

/-- Helper for C7: a `filterMap` over index–line pairs with
pairwise-distinct indices, whose results carry `line = index + 1`,
yields at most one finding per line number. -/
theorem filterMap_pairs_line_unique (g : Nat × String → Option Finding)
    (hg : ∀ p f, g p = some f → f.line = p.1 + 1) :
    ∀ ps : List (Nat × String), (ps.map Prod.fst).Nodup → ∀ n : Nat,
      ((ps.filterMap g).filter (fun f => f.line == n)).length ≤ 1 := by
  intro ps
  induction ps with
  | nil =>
    intro _ n
    simp
  | cons p rest ih =>
    intro hnd n
    rw [List.map_cons] at hnd
    obtain ⟨hnotmem, hndr⟩ := List.nodup_cons.mp hnd
    cases hgp : g p with
    | none => simpa [List.filterMap_cons, hgp] using ih hndr n
    | some f =>
      have hline := hg p f hgp
      by_cases hn : f.line = n
      · have htail : (rest.filterMap g).filter (fun f2 => f2.line == n) = [] := by
          rw [List.filter_eq_nil_iff]
          intro f2 hf2
          obtain ⟨q, hq, hgq⟩ := List.mem_filterMap.mp hf2
          have h2 := hg q f2 hgq
          have hne : q.1 ≠ p.1 := by
            intro he
            exact hnotmem (he ▸ List.mem_map_of_mem Prod.fst hq)
          simp only [beq_iff_eq]
          omega
        simp [List.filterMap_cons, hgp, List.filter_cons, hn, htail]
      · simp only [List.filterMap_cons, hgp, List.filter_cons]
        rw [if_neg (by simp [hn])]
        exact ih hndr n

/-- C7 counterexample: a line on which `.map(` occurs twice yields one
single finding from `checkMissingKeys` (at the first occurrence's
column), not one finding per occurrence. -/
theorem C7_cex :
    countOccur twoMapLine ".map(" = 2
    ∧ (checkMissingKeys twoMapLine "App.tsx").length = 1
    ∧ (checkMissingKeys twoMapLine "App.tsx").map Finding.column = [16] := by
  refine ⟨by decide, by decide, by decide⟩

/-- C7 (amended): `checkMissingKeys` emits at most one finding per line
— even when the pattern occurs several times on the line — and every
emitted finding's column is the 1-indexed offset of the first `.map(`
occurrence on its line. -/
theorem C7_missing_keys_one_per_line :
    (∀ content filePath : String, ∀ n : Nat,
      ((checkMissingKeys content filePath).filter
        (fun f => f.line == n)).length ≤ 1)
    ∧ (∀ content filePath : String,
        ∀ f ∈ checkMissingKeys content filePath,
          ∃ line, (jsLines content).get? (f.line - 1) = some line
            ∧ f.column = jsIndexOf line ".map(" + 1) := by
  constructor
  · intro content filePath n
    refine filterMap_pairs_line_unique _ ?_ ((jsLines content).enum)
      (List.nodup_enum_map_fst _) n
    intro p f hgf
    split at hgf
    · simp only [Option.some.injEq] at hgf
      subst hgf
      rfl
    · exact absurd hgf (by simp)
  · intro content filePath f hf
    obtain ⟨p, hp, hgf⟩ := List.mem_filterMap.mp hf
    split at hgf
    · simp only [Option.some.injEq] at hgf
      subst hgf
      have hg2 := List.mem_enum_iff_getElem?.mp hp
      refine ⟨p.2, ?_, rfl⟩
      simpa [List.get?_eq_getElem?, Nat.add_sub_cancel] using hg2
    · exact absurd hgf (by simp)

/-- C7 witness: the amended claim at the concrete two-occurrence line
and the finding it produces. -/
theorem C7_witness :
    ((checkMissingKeys twoMapLine "App.tsx").filter
      (fun f => f.line == 1)).length ≤ 1
    ∧ ∃ line, (jsLines twoMapLine).get? 0 = some line
        ∧ (16 : Int) = jsIndexOf line ".map(" + 1 :=
  ⟨C7_missing_keys_one_per_line.1 twoMapLine "App.tsx" 1,
   C7_missing_keys_one_per_line.2 twoMapLine "App.tsx"
     { ruleId := "react-missing-key",
       message := "Add key prop to list items for better reconciliation",
       severity := Severity.error, file := "App.tsx", line := 1,
       column := 16,
       suggestion := some "Add key={unique_identifier} to the JSX element" }
     (by decide)⟩

/-- A concrete `AnalysisResult` used as a witness fixture. -/
def sampleAnalysis : AnalysisResult :=
  { platform := "web", timestamp := "2025-01-01T00:00:00.000Z",
    summary := "Found 1 issues across 1 categories. Top areas: correctness (1)",
    findings := [errFinding], healthScore := 19 / 2 }

/-- C4: for a successfully constructed service, `enhanceAnalysis` on any
failed call returns the input with `findings`, `healthScore` and
`summary` unchanged, `aiEnhanced=false` and `aiError` set to the failure
message; the embedding is a total function, so the operation never
throws. -/
theorem C4_enhance_error_preserves :
    ∀ (config : ClaudeConfig) (cfg : RequiredClaudeConfig),
      constructClaudeService config = Except.ok cfg →
      ∀ (analysis : AnalysisResult) (e : String),
        (enhanceAnalysis cfg analysis (Except.error e)).findings
            = analysis.findings
        ∧ (enhanceAnalysis cfg analysis (Except.error e)).healthScore
            = analysis.healthScore
        ∧ (enhanceAnalysis cfg analysis (Except.error e)).summary
            = analysis.summary
        ∧ (enhanceAnalysis cfg analysis (Except.error e)).aiEnhanced
            = some false
        ∧ (enhanceAnalysis cfg analysis (Except.error e)).aiError = some e := by
  intro config cfg hc analysis e
  have hkey : cfg.apiKey ≠ "" := by
    unfold constructClaudeService at hc
    by_cases h : config.apiKey = ""
    · rw [if_pos h] at hc
      exact absurd hc (by simp)
    · rw [if_neg h] at hc
      injection hc with h2
      rw [← h2]
      exact h
  simp [enhanceAnalysis, hkey]

/-- C4 witness: the theorem applied to a concretely constructed service,
a concrete analysis and a concrete failure message. -/
theorem C4_witness :
    (enhanceAnalysis
      { apiKey := "sk-test", maxTokens := 4096, temperature := 3 / 10,
        model := "claude-3-5-haiku-latest", timeout := 30000 }
      sampleAnalysis
      (Except.error "Rate limit exceeded. Please try again later.")).findings
        = sampleAnalysis.findings
    ∧ (enhanceAnalysis
        { apiKey := "sk-test", maxTokens := 4096, temperature := 3 / 10,
          model := "claude-3-5-haiku-latest", timeout := 30000 }
        sampleAnalysis
        (Except.error "Rate limit exceeded. Please try again later.")).aiError
        = some "Rate limit exceeded. Please try again later." :=
  ⟨(C4_enhance_error_preserves { apiKey := "sk-test" } _ rfl sampleAnalysis
      "Rate limit exceeded. Please try again later.").1,
   (C4_enhance_error_preserves { apiKey := "sk-test" } _ rfl sampleAnalysis
      "Rate limit exceeded. Please try again later.").2.2.2.2⟩

/-- C10: the `ClaudeService` constructor throws
`'Claude API key is required'` exactly when the supplied `apiKey` is
empty/absent, and with a non-empty `apiKey` it succeeds, filling the
defaults `maxTokens=4096`, `temperature=0.3`,
`model='claude-3-5-haiku-latest'`, `timeout=30000` for omitted
options. -/
theorem C10_ctor_key_required :
    ∀ config : ClaudeConfig,
      (config.apiKey = "" →
        constructClaudeService config
          = Except.error "Claude API key is required")
      ∧ (config.apiKey ≠ "" →
        constructClaudeService config = Except.ok
          { apiKey := config.apiKey,
            maxTokens := config.maxTokens.getD 4096,
            temperature := config.temperature.getD (3 / 10),
            model := config.model.getD "claude-3-5-haiku-latest",
            timeout := config.timeout.getD 30000 })
      ∧ ((∃ msg, constructClaudeService config = Except.error msg)
          ↔ config.apiKey = "") := by
  intro config
  refine ⟨?_, ?_, ?_, ?_⟩
  · intro h
    simp [constructClaudeService, h]
  · intro h
    simp [constructClaudeService, h]
  · rintro ⟨msg, hmsg⟩
    by_cases h : config.apiKey = ""
    · exact h
    · rw [constructClaudeService, if_neg h] at hmsg
      exact absurd hmsg (by simp)
  · intro h
    exact ⟨"Claude API key is required", by simp [constructClaudeService, h]⟩

/-- C10 witness: the constructor evaluated at an empty and at a
non-empty API key. -/
theorem C10_witness :
    constructClaudeService { apiKey := "" }
      = Except.error "Claude API key is required"
    ∧ constructClaudeService { apiKey := "sk-test" } = Except.ok
        { apiKey := "sk-test", maxTokens := 4096, temperature := 3 / 10,
          model := "claude-3-5-haiku-latest", timeout := 30000 } :=
  ⟨(C10_ctor_key_required { apiKey := "" }).1 rfl,
   (C10_ctor_key_required { apiKey := "sk-test" }).2.1 (by decide)⟩

/-- Helper for C8: the final suggestion list is never empty (the fixed
fallback fills in when the cleanup removed everything). -/
theorem finalSuggestions_ne_nil (cands : List (List Char)) :
    finalSuggestions cands ≠ [] := by
  unfold finalSuggestions
  intro hcontra
  rw [List.map_eq_nil_iff] at hcontra
  split at hcontra
  · exact absurd hcontra (by simp)
  · next hne => exact hne (by simp [hcontra])

/-- Helper for C8: every final suggestion has positive length (cleaned
entries have length above 5; the fallback strings are non-empty). -/
theorem finalSuggestions_pos (cands : List (List Char)) :
    ∀ s ∈ finalSuggestions cands, 0 < s.length := by
  intro s hs
  unfold finalSuggestions at hs
  obtain ⟨cs, hcs, rfl⟩ := List.mem_map.mp hs
  split at hcs
  · simp only [List.mem_singleton] at hcs
    subst hcs
    decide
  · have hmem := List.mem_of_mem_take hcs
    have h5 : cs.length > 5 := by
      simpa using (List.mem_filter.mp hmem).2
    have hlen : (List.asString cs).length = cs.length := rfl
    omega

/-- Helper for C8: the capped summary never exceeds 200 characters. -/
theorem capSummary_le (cs : List Char) : (capSummary cs).length ≤ 200 := by
  unfold capSummary
  split
  · next h =>
    have hlen : (List.asString (cs.take 197 ++ "...".data)).length
        = (cs.take 197 ++ "...".data).length := rfl
    rw [hlen, List.length_append, List.length_take]
    have : "...".data.length = 3 := rfl
    omega
  · next h =>
    have hlen : (List.asString cs).length = cs.length := rfl
    rw [hlen]
    omega

/-- C8: for every input text, the heuristic text-extraction fallback
returns at least one suggestion, every returned suggestion is
non-empty, and the summary's length never exceeds the fixed cap of 200
characters (ellipsis truncation included). -/
theorem C8_text_fallback_guarantees :
    ∀ text : String,
      (extractInsightsFromText text).suggestions ≠ []
      ∧ (∀ s ∈ (extractInsightsFromText text).suggestions, s ≠ "")
      ∧ (extractInsightsFromText text).summary.length ≤ 200 := by
  intro text
  refine ⟨finalSuggestions_ne_nil _, ?_, capSummary_le _⟩
  intro s hs
  have hpos := finalSuggestions_pos _ s hs
  intro heq
  rw [heq] at hpos
  exact absurd hpos (by decide)

/-- C8 witness: the guarantees evaluated on the empty response text,
whose single synthesized suggestion is the generic one. -/
theorem C8_witness :
    (extractInsightsFromText "").suggestions ≠ []
    ∧ ("Review the code analysis results for improvement opportunities"
        : String) ≠ ""
    ∧ (extractInsightsFromText "").summary.length ≤ 200 :=
  ⟨(C8_text_fallback_guarantees "").1,
   (C8_text_fallback_guarantees "").2.1 _ (by decide),
   (C8_text_fallback_guarantees "").2.2⟩
